import Mathlib

/-!
Verification of the entitlement-validation and URL-issuance pipeline of
`src/index.js` (an Express service issuing short-lived signed download URLs
for license-gated packages).

Modelling conventions (shallow embedding):
* Caller-supplied strings are `List Char`; a request-body field that may be
  absent is `Option (List Char)`, and JavaScript truthiness of a string
  (`!s` is true exactly when `s` is `undefined` or the empty string) is the
  `truthy` predicate below.
* Timestamps and parsed dates are milliseconds since the Unix epoch, as
  `Int` (JavaScript `Date` values compare by their epoch-millisecond value);
  ISO-8601 rendering of a timestamp is not modelled, only its value.
* The external R2 signing call (`getSignedUrl`) is a parameter
  `signer : SignCmd → Option (List Char)`: `none` models the promise
  rejecting (the `catch` branch), `some url` a successful signature.
* The handler is embedded as `handleDownloadT`, which also returns the
  trace of effectful calls it makes (entitlement-store lookups, signing
  calls, rate-limiter checks), so that claims of the form "X is never
  invoked" are provable as statements about the trace.
* JavaScript property access `LICENSES[license]` walks the prototype
  chain: an object literal inherits the members of `Object.prototype`, so
  a key such as `"constructor"` or `"toString"` yields a truthy inherited
  value (a function, or for `"__proto__"` the prototype object) rather
  than `undefined`.  `lookupLicense` therefore returns a `JsLookup` with
  three cases: an own record, an inherited member, or `undefined`.
-/

/-- JavaScript truthiness of an optional string field: `undefined` and the
empty string are falsy, every other string is truthy. -/
def truthy : Option (List Char) → Bool
  | none => false
  | some s => !s.isEmpty

/-- `isPrefixList sub s` decides whether `sub` is a prefix of `s`
(character-by-character comparison, as in the JS string search). -/
def isPrefixList : List Char → List Char → Bool
  | [], _ => true
  | _ :: _, [] => false
  | a :: as, b :: bs => a == b && isPrefixList as bs

/-- JavaScript `s.includes(sub)`: `sub` occurs as a contiguous substring of
`s`. -/
def jsIncludes (sub : List Char) : List Char → Bool
  | [] => sub.isEmpty
  | c :: rest => isPrefixList sub (c :: rest) || jsIncludes sub rest

/-- A JavaScript word character, `\w` in a regex: ASCII letter, digit or
underscore. -/
def isWordChar (c : Char) : Bool :=
  c.isAlpha || c.isDigit || c == '_'

/-- A character allowed in the body of a file name by the character class
`[\w\-\/]` of the regex in `validateFileName`. -/
def fileChar (c : Char) : Bool :=
  isWordChar c || c == '-' || c == '/'

/-- `validateFileName` from src/index.js line 112: the test of the regex
`^[\w\-\/]+\.zip$`.  A string matches exactly when its last four characters
are `.zip` and the (nonempty) part before them consists of characters from
the class `[\w\-\/]`; because that class excludes `'.'`, the literal `.zip`
of a match is necessarily the final four characters. -/
def validateFileName (file : List Char) : Bool :=
  decide (5 ≤ file.length) &&
    (file.drop (file.length - 4) == ".zip".data) &&
    (file.take (file.length - 4)).all fileChar

/-- One license record of the in-memory `LICENSES` store (src/index.js
lines 90-103).  `expires` is the epoch-millisecond value of the record's
expiry date string as `new Date(dateStr)` parses it. -/
structure LicenseRecord where
  active : Bool
  expires : Int
  domains : List (List Char)
  files : List (List Char)
deriving DecidableEq

/-- The seeded `LICENSES` store (src/index.js lines 90-103).
`1798675200000` is `Date.parse("2026-12-31")` and `1767225600000` is
`Date.parse("2026-01-01")` (UTC midnight of those dates). -/
def LICENSES : List (List Char × LicenseRecord) :=
  [("ABC-123-XYZ".data,
    { active := true
      expires := 1798675200000
      domains := ["localhost".data, "127.0.0.1".data, "woozio.local".data,
                  "demo.yourtheme.com".data]
      files := ["package-install__woozio-main.zip".data,
                "theme-a/demo.zip".data, "theme-b/demo.zip".data] }),
   ("TEST-999-KEY".data,
    { active := true
      expires := 1767225600000
      domains := ["localhost".data]
      files := ["package-install__woozio-main.zip".data] })]

/-- The property names every object literal inherits from
`Object.prototype` (Node's standard set): bracket access with one of
these keys returns the inherited member — a function, or for `__proto__`
the prototype object — which is truthy and carries none of the license
record's fields. -/
def protoKeys : List (List Char) :=
  ["constructor".data, "hasOwnProperty".data, "isPrototypeOf".data,
   "propertyIsEnumerable".data, "toLocaleString".data, "toString".data,
   "valueOf".data, "__defineGetter__".data, "__defineSetter__".data,
   "__lookupGetter__".data, "__lookupSetter__".data, "__proto__".data]

/-- The result of JavaScript property access `LICENSES[license]`: an own
property (a license record), a member inherited from `Object.prototype`
(truthy, but with `active`, `expires`, `domains`, `files` all
`undefined`), or `undefined`. -/
inductive JsLookup where
  | record (lic : LicenseRecord)
  | inherited
  | undef
deriving DecidableEq

/-- JavaScript property access `LICENSES[license]`: exact, case-sensitive
own-key equality first, then the prototype chain — a key naming an
`Object.prototype` member yields that truthy inherited member instead of
`undefined`. -/
def lookupLicense (store : List (List Char × LicenseRecord))
    (key : List Char) : JsLookup :=
  match store.find? (fun p => p.1 == key) with
  | some p => JsLookup.record p.2
  | none =>
    if protoKeys.contains key then JsLookup.inherited else JsLookup.undef

/-- `isExpired` from src/index.js line 108: `new Date(dateStr) < new Date()`,
i.e. the parsed expiry instant is strictly before the current instant. -/
def isExpired (expiresAt now : Int) : Bool :=
  decide (expiresAt < now)

/-- `validateLicense` from src/index.js lines 117-129. `none` models
`{ ok: true }`; `some msg` models `{ ok: false, error: msg }`.  When the
lookup hits an inherited `Object.prototype` member, `lic` is truthy (so
`!lic` does not fire) but `lic.active` is `undefined` (falsy), so the
source returns "License inactive" before any further check. -/
def validateLicense (store : List (List Char × LicenseRecord)) (now : Int)
    (license domain file : List Char) : Option String :=
  match lookupLicense store license with
  | JsLookup.undef => some "License not found"
  | JsLookup.inherited => some "License inactive"
  | JsLookup.record lic =>
    if !lic.active then some "License inactive"
    else if isExpired lic.expires now then some "License expired"
    else if !(lic.domains.any fun allowed => jsIncludes allowed domain) then
      some "Domain not allowed"
    else if !(lic.files.contains file) then
      some "File not permitted for this license"
    else none

/-- The request the handler sends to the external signing capability:
object key and requested validity in seconds. -/
structure SignCmd where
  key : List Char
  expiresIn : Nat
deriving DecidableEq

/-- The `GetObjectCommand`/`getSignedUrl` call of `generateSignedUrl`
(src/index.js lines 131-138): the object key is the file key and the
requested validity is `60 * 10` seconds. -/
def signCommand (fileKey : List Char) : SignCmd :=
  { key := fileKey, expiresIn := 60 * 10 }

/-- `generateSignedUrl` from src/index.js lines 131-138, with the external
signing capability abstracted as `signer`. -/
def generateSignedUrl (signer : SignCmd → Option (List Char))
    (fileKey : List Char) : Option (List Char) :=
  signer (signCommand fileKey)

/-- The `data` object of a successful `/download` response
(src/index.js lines 198-203). -/
structure RespData where
  url : List Char
  expires_in : Nat
  expires_at : Int
  file : List Char
deriving DecidableEq

/-- An HTTP response of the `/download` endpoint: status code, the
`success` flag, and the optional `message`, `error` and `data` fields of
the JSON body. -/
structure HttpResponse where
  status : Nat
  success : Bool
  message : Option String
  error : Option String
  data : Option RespData
deriving DecidableEq

/-- The parsed JSON body of a `/download` request; a field is `none` when
the body does not supply it. -/
structure DownloadRequest where
  license : Option (List Char)
  domain : Option (List Char)
  file : Option (List Char)
deriving DecidableEq

/-- An effectful call made while handling a request; used to trace which
collaborators a request reaches. `rateCheck` would be the rate limiter
consulting its per-identity bucket — the handler below never emits it,
because `limiter` (src/index.js lines 58-73) is never mounted on the app:
no `app.use(limiter)` exists and line 154 registers the route as
`app.post('/download', handler)` with no middleware. -/
inductive Event where
  | rateCheck (identity : List Char)
  | storeLookup (key : List Char)
  | signCall (cmd : SignCmd)
deriving DecidableEq

/-- Response of src/index.js lines 164-167. -/
def missingFieldsResp : HttpResponse :=
  { status := 400, success := false, message := none
    error := some "Missing license, domain, or file", data := none }

/-- Response of src/index.js lines 173-176. -/
def invalidFileNameResp : HttpResponse :=
  { status := 400, success := false, message := none
    error := some "Invalid file name", data := none }

/-- Response of src/index.js lines 183-186: the validator's reason string
is surfaced verbatim with status 403. -/
def rejectResp (msg : String) : HttpResponse :=
  { status := 403, success := false, message := none
    error := some msg, data := none }

/-- Response of src/index.js lines 195-204. -/
def successResp (now : Int) (url file : List Char) : HttpResponse :=
  { status := 200, success := true
    message := some "License and domain verified", error := none
    data := some { url := url, expires_in := 600
                   expires_at := now + 600 * 1000, file := file } }

/-- Response of src/index.js lines 208-211. -/
def issuanceFailedResp : HttpResponse :=
  { status := 500, success := false, message := none
    error := some "Failed to generate download URL. Please try again later."
    data := none }

/-- The `POST /download` handler (src/index.js lines 154-213) together
with the trace of effectful calls it makes.  The route has no other
middleware (in particular not `limiter`), so this function is the whole
per-request processing. -/
def handleDownloadT (store : List (List Char × LicenseRecord))
    (signer : SignCmd → Option (List Char)) (now : Int)
    (req : DownloadRequest) : HttpResponse × List Event :=
  let license := req.license.getD []
  let domain := req.domain.getD []
  let file := req.file.getD []
  if !truthy req.license || !truthy req.domain || !truthy req.file then
    (missingFieldsResp, [])
  else if !validateFileName file then
    (invalidFileNameResp, [])
  else
    match validateLicense store now license domain file with
    | some msg => (rejectResp msg, [Event.storeLookup license])
    | none =>
      match generateSignedUrl signer file with
      | some url =>
        (successResp now url file,
         [Event.storeLookup license, Event.signCall (signCommand file)])
      | none =>
        (issuanceFailedResp,
         [Event.storeLookup license, Event.signCall (signCommand file)])

/-- Modelled from the spec: the per-identity window state of the rate
limiter (src/index.js lines 58-73 configure the `express-rate-limit`
library, whose store implementation is not part of src/). -/
structure RateBucket where
  windowStart : Int
  count : Nat
deriving DecidableEq

/-- `windowMs: 15 * 60 * 1000` of the limiter configuration
(src/index.js line 59). -/
def rateWindowMs : Int := 15 * 60 * 1000

/-- `max: 30` of the limiter configuration (src/index.js line 60). -/
def rateMax : Nat := 30

/-- Modelled from the spec: one rate-limiter hit — if the window has
elapsed, reset to a fresh window with count 1, else increment the count
(the library internals are not part of src/; §4.3 of the specification
describes this step). -/
def rateLimitHit (now : Int) : Option RateBucket → RateBucket
  | none => { windowStart := now, count := 1 }
  | some b =>
    if rateWindowMs < now - b.windowStart then
      { windowStart := now, count := 1 }
    else
      { windowStart := b.windowStart, count := b.count + 1 }

/-- Modelled from the spec: the limiter rejects when the count of the
active window exceeds `max`. -/
def rateRejects (b : RateBucket) : Bool :=
  decide (rateMax < b.count)

/-- The bucket state after `n` hits from one identity, all at time `now`. -/
def hitsN (now : Int) : Nat → Option RateBucket
  | 0 => none
  | n + 1 => some (rateLimitHit now (hitsN now n))

/-- The response the configured (but never mounted) limiter handler would
send (src/index.js lines 66-72). -/
def rateLimitExceededResp : HttpResponse :=
  { status := 429, success := false, message := none
    error := some "Too many requests. Please try again later."
    data := none }

/-- `isPrefixList` decides `List.IsPrefix`. -/
theorem isPrefixList_iff (sub : List Char) :
    ∀ s : List Char, isPrefixList sub s = true ↔ sub <+: s := by
  induction sub with
  | nil =>
    intro s
    simp only [isPrefixList]
    exact ⟨fun _ => ⟨s, rfl⟩, fun _ => trivial⟩
  | cons a as ih =>
    intro s
    cases s with
    | nil =>
      simp only [isPrefixList]
      constructor
      · intro h; exact absurd h (by simp)
      · rintro ⟨r, hr⟩; exact absurd hr (by simp)
    | cons b bs =>
      simp only [isPrefixList, Bool.and_eq_true, beq_iff_eq, ih bs]
      constructor
      · rintro ⟨rfl, ⟨r, hr⟩⟩; exact ⟨r, by simp [hr]⟩
      · rintro ⟨r, hr⟩
        rw [List.cons_append] at hr
        obtain ⟨rfl, hr2⟩ := List.cons.inj hr
        exact ⟨rfl, ⟨r, hr2⟩⟩

/-- `jsIncludes` decides `List.IsInfix`: JS `s.includes(sub)` holds exactly
when `sub` is a contiguous substring of `s`. -/
theorem jsIncludes_iff (sub : List Char) :
    ∀ s : List Char, jsIncludes sub s = true ↔ sub <:+: s := by
  intro s
  induction s with
  | nil =>
    simp only [jsIncludes, List.isEmpty_iff]
    constructor
    · rintro rfl; exact ⟨[], [], rfl⟩
    · rintro ⟨u, v, huv⟩
      have := List.append_eq_nil.mp huv
      exact (List.append_eq_nil.mp this.1).2
  | cons c rest ih =>
    simp only [jsIncludes, Bool.or_eq_true, isPrefixList_iff, ih]
    constructor
    · rintro (⟨r, hr⟩ | ⟨u, v, huv⟩)
      · exact ⟨[], r, by simpa using hr⟩
      · exact ⟨c :: u, v, by simp [huv]⟩
    · rintro ⟨u, v, huv⟩
      cases u with
      | nil => exact Or.inl ⟨v, by simpa using huv⟩
      | cons x u2 =>
        rw [List.cons_append, List.cons_append] at huv
        obtain ⟨rfl, h2⟩ := List.cons.inj huv
        exact Or.inr ⟨u2, v, h2⟩

/-- The filename-safety grammar as the specification words it: word
characters, hyphens, underscores and forward slashes, followed by a
mandatory `.zip` suffix. -/
def fileGrammarSpec (file : List Char) : Prop :=
  ∃ body : List Char, file = body ++ ".zip".data ∧ body ≠ [] ∧
    ∀ c ∈ body, isWordChar c = true ∨ c = '-' ∨ c = '_' ∨ c = '/'

/-- A character of the body class is not a dot. -/
theorem fileChar_not_dot (c : Char) (h : fileChar c = true) :
    (c == '.') = false := by
  cases hc : (c == '.')
  · rfl
  · rw [beq_iff_eq] at hc
    subst hc
    exact absurd h (by decide)

/-- The regex test of `validateFileName` accepts exactly the strings of the
specification's grammar. -/
theorem validateFileName_iff_spec (file : List Char) :
    validateFileName file = true ↔ fileGrammarSpec file := by
  constructor
  · intro h
    simp only [validateFileName, Bool.and_eq_true, decide_eq_true_eq,
      beq_iff_eq, List.all_eq_true] at h
    obtain ⟨⟨hlen, hdrop⟩, hall⟩ := h
    refine ⟨file.take (file.length - 4), ?_, ?_, ?_⟩
    · conv_lhs => rw [← List.take_append_drop (file.length - 4) file]
      rw [hdrop]
    · intro hnil
      have : (file.take (file.length - 4)).length = file.length - 4 := by
        rw [List.length_take]
        omega
      rw [hnil] at this
      simp at this
      omega
    · intro c hc
      have hfc := hall c hc
      simp only [fileChar, isWordChar, Bool.or_eq_true, beq_iff_eq] at hfc
      rcases hfc with ((h1 | h1) | h1) | h1
      · exact Or.inl (by simp [isWordChar, h1])
      · exact Or.inl (by simp [isWordChar, h1])
      · exact Or.inr (Or.inl h1)
      · exact Or.inr (Or.inr (Or.inr h1))
  · rintro ⟨body, rfl, hne, hmem⟩
    have hblen : 1 ≤ body.length := by
      cases body with
      | nil => exact absurd rfl hne
      | cons x xs => simp
    have hlen : (body ++ ".zip".data).length = body.length + 4 := by
      simp [String.data]
    simp only [validateFileName, Bool.and_eq_true, decide_eq_true_eq,
      beq_iff_eq, List.all_eq_true, hlen]
    refine ⟨⟨by omega, ?_⟩, ?_⟩
    · have : body.length + 4 - 4 = body.length := by omega
      rw [this, List.drop_left]
    · have : body.length + 4 - 4 = body.length := by omega
      rw [this, List.take_left]
      intro c hc
      rcases hmem c hc with h1 | h1 | h1 | h1
      · simp [fileChar, h1]
      · simp [fileChar, h1]
      · simp [fileChar, isWordChar, h1]
      · simp [fileChar, h1]

/-- A request with all three fields present and truthy gets past the
missing-fields guard; the rest of the handler is as written. -/
theorem handleDownloadT_shape (store : List (List Char × LicenseRecord))
    (signer : SignCmd → Option (List Char)) (now : Int)
    (req : DownloadRequest) (license domain file : List Char)
    (hl : req.license = some license) (hd : req.domain = some domain)
    (hf : req.file = some file) (hl1 : license ≠ [])
    (hd1 : domain ≠ []) (hf1 : file ≠ []) :
    handleDownloadT store signer now req =
      if !validateFileName file then (invalidFileNameResp, [])
      else
        match validateLicense store now license domain file with
        | some msg => (rejectResp msg, [Event.storeLookup license])
        | none =>
          match generateSignedUrl signer file with
          | some url =>
            (successResp now url file,
             [Event.storeLookup license, Event.signCall (signCommand file)])
          | none =>
            (issuanceFailedResp,
             [Event.storeLookup license, Event.signCall (signCommand file)]) := by
  simp [handleDownloadT, hl, hd, hf, truthy, hl1, hd1, hf1]

/-- Unfolding `validateLicense` when the key resolves to an own record. -/
theorem validateLicense_some (store : List (List Char × LicenseRecord))
    (now : Int) (license domain file : List Char) (lic : LicenseRecord)
    (hfound : lookupLicense store license = JsLookup.record lic) :
    validateLicense store now license domain file =
      (if !lic.active then some "License inactive"
       else if isExpired lic.expires now then some "License expired"
       else if !(lic.domains.any fun allowed => jsIncludes allowed domain) then
         some "Domain not allowed"
       else if !(lic.files.contains file) then
         some "File not permitted for this license"
       else none) := by
  simp [validateLicense, hfound]

/-- Unfolding `validateLicense` when the key resolves to nothing at all. -/
theorem validateLicense_none (store : List (List Char × LicenseRecord))
    (now : Int) (license domain file : List Char)
    (hfound : lookupLicense store license = JsLookup.undef) :
    validateLicense store now license domain file = some "License not found" := by
  simp [validateLicense, hfound]

/-- Unfolding `validateLicense` when the key hits an inherited
`Object.prototype` member: the truthy member's `active` is `undefined`,
so the result is "License inactive". -/
theorem validateLicense_inherited (store : List (List Char × LicenseRecord))
    (now : Int) (license domain file : List Char)
    (hfound : lookupLicense store license = JsLookup.inherited) :
    validateLicense store now license domain file = some "License inactive" := by
  simp [validateLicense, hfound]

/-- The domain check in terms of substring membership. -/
theorem domains_any_iff (domains : List (List Char)) (domain : List Char) :
    (domains.any fun allowed => jsIncludes allowed domain) = true ↔
      ∃ a ∈ domains, a <:+: domain := by
  rw [List.any_eq_true]
  constructor
  · rintro ⟨a, ha, hj⟩; exact ⟨a, ha, (jsIncludes_iff a domain).mp hj⟩
  · rintro ⟨a, ha, hj⟩; exact ⟨a, ha, (jsIncludes_iff a domain).mpr hj⟩

/-- C2: a request that reaches the domain check is rejected with
"Domain not allowed" exactly when no entry of the license's allowed
domains occurs as a substring of the caller-supplied domain (the allowed
entry contained in the request domain, not the other way around). -/
theorem C2_domain_substring_rule (store : List (List Char × LicenseRecord))
    (now : Int) (license domain file : List Char) (lic : LicenseRecord)
    (hfound : lookupLicense store license = JsLookup.record lic)
    (hactive : lic.active = true)
    (hfresh : isExpired lic.expires now = false) :
    validateLicense store now license domain file = some "Domain not allowed"
      ↔ ¬ ∃ a ∈ lic.domains, a <:+: domain := by
  rw [validateLicense_some store now license domain file lic hfound,
    hactive, hfresh]
  simp only [Bool.not_true, if_false]
  by_cases hany : (lic.domains.any fun allowed => jsIncludes allowed domain) = true
  · rw [hany]
    simp only [Bool.not_true, if_false]
    constructor
    · intro h
      exfalso
      cases hcon : lic.files.contains file <;> simp [hcon] at h
    · intro h
      exact absurd ((domains_any_iff lic.domains domain).mp hany) h
  · have hany2 : (lic.domains.any fun allowed => jsIncludes allowed domain) = false := by
      cases h2 : (lic.domains.any fun allowed => jsIncludes allowed domain)
      · rfl
      · exact absurd h2 hany
    rw [hany2]
    simp only [Bool.not_false, if_true]
    constructor
    · intro _ hex
      exact hany ((domains_any_iff lic.domains domain).mpr hex)
    · intro _
      rfl

/-- C2 witness: the seeded license accepts a subdomain of an allowed
entry, and rejects a domain containing none of its entries. -/
theorem C2_domain_substring_rule_witness :
    validateLicense LICENSES 0 "ABC-123-XYZ".data "evil.example.org".data
      "theme-a/demo.zip".data = some "Domain not allowed" :=
  (C2_domain_substring_rule LICENSES 0 "ABC-123-XYZ".data
    "evil.example.org".data "theme-a/demo.zip".data _ rfl rfl rfl).mpr
    (by decide)

/-- C3: with all three fields present, a file string outside the safety
grammar is answered 400 "Invalid file name" with no effectful call (the
Validator and the Entitlement Store are never reached); the grammar is
exactly word characters, hyphens, underscores and slashes with a mandatory
terminal ".zip", and an accepted string has no dot outside that suffix. -/
theorem C3_filename_grammar_guard (store : List (List Char × LicenseRecord))
    (signer : SignCmd → Option (List Char)) (now : Int)
    (req : DownloadRequest) (file : List Char)
    (hf : req.file = some file) (hl : truthy req.license = true)
    (hd : truthy req.domain = true) (hft : truthy req.file = true) :
    (validateFileName file = false →
      handleDownloadT store signer now req = (invalidFileNameResp, [])) ∧
    (validateFileName file = true ↔ fileGrammarSpec file) ∧
    (validateFileName file = true →
      (file.take (file.length - 4)).all (fun c => !(c == '.')) = true ∧
      file.drop (file.length - 4) = ".zip".data) := by
  obtain ⟨license, hlic, hl1⟩ : ∃ l, req.license = some l ∧ l ≠ [] := by
    cases hh : req.license with
    | none => rw [hh] at hl; exact absurd hl (by simp [truthy])
    | some l =>
      refine ⟨l, rfl, fun hnil => ?_⟩
      rw [hh, hnil] at hl
      simp [truthy] at hl
  obtain ⟨domain, hdom, hd1⟩ : ∃ d, req.domain = some d ∧ d ≠ [] := by
    cases hh : req.domain with
    | none => rw [hh] at hd; exact absurd hd (by simp [truthy])
    | some d =>
      refine ⟨d, rfl, fun hnil => ?_⟩
      rw [hh, hnil] at hd
      simp [truthy] at hd
  have hf1 : file ≠ [] := by
    intro hnil
    rw [hf, hnil] at hft
    simp [truthy] at hft
  refine ⟨?_, validateFileName_iff_spec file, ?_⟩
  · intro hbad
    rw [handleDownloadT_shape store signer now req license domain file
      hlic hdom hf hl1 hd1 hf1]
    simp [hbad]
  · intro hgood
    simp only [validateFileName, Bool.and_eq_true, decide_eq_true_eq,
      beq_iff_eq, List.all_eq_true] at hgood
    obtain ⟨⟨hlen, hdrop⟩, hall⟩ := hgood
    refine ⟨?_, hdrop⟩
    rw [List.all_eq_true]
    intro c hc
    have hnd := fileChar_not_dot c (hall c hc)
    simp [hnd]

/-- C3 witness: a path-traversal file name is rejected with 400 "Invalid
file name" and an empty effect trace. -/
theorem C3_filename_grammar_guard_witness :
    handleDownloadT LICENSES (fun c => some c.key) 0
      { license := some "ABC-123-XYZ".data, domain := some "localhost".data,
        file := some "../../etc/passwd".data } = (invalidFileNameResp, []) :=
  (C3_filename_grammar_guard LICENSES (fun c => some c.key) 0
    { license := some "ABC-123-XYZ".data, domain := some "localhost".data,
      file := some "../../etc/passwd".data }
    "../../etc/passwd".data rfl (by decide) (by decide) (by decide)).1
    (by decide)

/-- C9: a request missing any of the three fields is answered 400
"Missing license, domain, or file" with an empty effect trace: neither
the file-name grammar check's response nor any Validator call occurs. -/
theorem C9_missing_field_rejected_first
    (store : List (List Char × LicenseRecord))
    (signer : SignCmd → Option (List Char)) (now : Int)
    (req : DownloadRequest)
    (h : req.license = none ∨ req.domain = none ∨ req.file = none) :
    handleDownloadT store signer now req = (missingFieldsResp, []) := by
  rcases h with h | h | h <;> simp [handleDownloadT, h, truthy]

/-- C9 witness: a request with no license and a grammar-invalid file gets
the missing-fields response, not the invalid-file response, and no
Validator call. -/
theorem C9_missing_field_rejected_first_witness :
    handleDownloadT LICENSES (fun c => some c.key) 0
      { license := none, domain := some "localhost".data,
        file := some "../../etc/passwd".data } = (missingFieldsResp, []) :=
  C9_missing_field_rejected_first LICENSES (fun c => some c.key) 0
    { license := none, domain := some "localhost".data,
      file := some "../../etc/passwd".data } (Or.inl rfl)

/-- C10: an empty string in any of the three fields is falsy, so such a
request is treated exactly like one with the field absent: it gets the 400
missing-fields response with an empty effect trace, and never reaches the
Entitlement Store. -/
theorem C10_empty_string_like_missing
    (store : List (List Char × LicenseRecord))
    (signer : SignCmd → Option (List Char)) (now : Int)
    (req : DownloadRequest)
    (h : req.license = some [] ∨ req.domain = some [] ∨ req.file = some []) :
    handleDownloadT store signer now req = (missingFieldsResp, []) ∧
    handleDownloadT store signer now req =
      handleDownloadT store signer now
        { license := none, domain := none, file := none } := by
  have h2 : handleDownloadT store signer now
      { license := none, domain := none, file := none } =
      (missingFieldsResp, []) := by
    simp [handleDownloadT, truthy]
  have h1 : handleDownloadT store signer now req = (missingFieldsResp, []) := by
    rcases h with h | h | h <;> simp [handleDownloadT, h, truthy]
  exact ⟨h1, h1.trans h2.symm⟩

/-- C10 witness: an otherwise fully valid request whose license is the
empty string gets the missing-fields response with an empty trace. -/
theorem C10_empty_string_like_missing_witness :
    handleDownloadT LICENSES (fun c => some c.key) 0
      { license := some [], domain := some "woozio.local".data,
        file := some "theme-a/demo.zip".data } = (missingFieldsResp, []) :=
  (C10_empty_string_like_missing LICENSES (fun c => some c.key) 0
    { license := some [], domain := some "woozio.local".data,
      file := some "theme-a/demo.zip".data } (Or.inl rfl)).1

/-- C4: the validator applies its five checks in the fixed order
not-found, inactive, expired, domain-not-allowed, file-not-permitted and
short-circuits at the first failure — each conjunct fixes the earlier
checks' outcomes and quantifies over everything a later check would look
at, so a failed check's reason is independent of the later checks — and
the handler surfaces the failing reason verbatim in a 403 response.  On a
prototype-chain hit the not-found check does not fire and the inactive
check fails (the inherited member's `active` is `undefined`), surfaced
verbatim like every other reason. -/
theorem C4_ordered_short_circuit (store : List (List Char × LicenseRecord))
    (license : List Char) :
    (lookupLicense store license = JsLookup.undef →
      ∀ (now : Int) (domain file : List Char),
        validateLicense store now license domain file =
          some "License not found") ∧
    (∀ lic : LicenseRecord, lookupLicense store license = JsLookup.record lic →
      lic.active = false →
      ∀ (now : Int) (domain file : List Char),
        validateLicense store now license domain file =
          some "License inactive") ∧
    (∀ lic : LicenseRecord, lookupLicense store license = JsLookup.record lic →
      lic.active = true →
      ∀ now : Int, isExpired lic.expires now = true →
      ∀ domain file : List Char,
        validateLicense store now license domain file =
          some "License expired") ∧
    (∀ lic : LicenseRecord, lookupLicense store license = JsLookup.record lic →
      lic.active = true →
      ∀ now : Int, isExpired lic.expires now = false →
      ∀ domain : List Char,
        (lic.domains.any fun allowed => jsIncludes allowed domain) = false →
      ∀ file : List Char,
        validateLicense store now license domain file =
          some "Domain not allowed") ∧
    (∀ lic : LicenseRecord, lookupLicense store license = JsLookup.record lic →
      lic.active = true →
      ∀ now : Int, isExpired lic.expires now = false →
      ∀ domain : List Char,
        (lic.domains.any fun allowed => jsIncludes allowed domain) = true →
      ∀ file : List Char, lic.files.contains file = false →
        validateLicense store now license domain file =
          some "File not permitted for this license") ∧
    (∀ lic : LicenseRecord, lookupLicense store license = JsLookup.record lic →
      lic.active = true →
      ∀ now : Int, isExpired lic.expires now = false →
      ∀ domain : List Char,
        (lic.domains.any fun allowed => jsIncludes allowed domain) = true →
      ∀ file : List Char, lic.files.contains file = true →
        validateLicense store now license domain file = none) ∧
    (∀ (signer : SignCmd → Option (List Char)) (now : Int)
       (req : DownloadRequest) (domain file : List Char) (msg : String),
      req.license = some license → req.domain = some domain →
      req.file = some file → license ≠ [] → domain ≠ [] → file ≠ [] →
      validateFileName file = true →
      validateLicense store now license domain file = some msg →
      handleDownloadT store signer now req =
        (rejectResp msg, [Event.storeLookup license])) ∧
    (lookupLicense store license = JsLookup.inherited →
      ∀ (now : Int) (domain file : List Char),
        validateLicense store now license domain file =
          some "License inactive") := by
  refine ⟨?_, ?_, ?_, ?_, ?_, ?_, ?_, ?_⟩
  · intro h now domain file
    exact validateLicense_none store now license domain file h
  · intro lic hfound hact now domain file
    rw [validateLicense_some store now license domain file lic hfound, hact]
    simp
  · intro lic hfound hact now hexp domain file
    rw [validateLicense_some store now license domain file lic hfound,
      hact, hexp]
    simp
  · intro lic hfound hact now hexp domain hany file
    rw [validateLicense_some store now license domain file lic hfound,
      hact, hexp, hany]
    simp
  · intro lic hfound hact now hexp domain hany file hcon
    rw [validateLicense_some store now license domain file lic hfound,
      hact, hexp, hany, hcon]
    simp
  · intro lic hfound hact now hexp domain hany file hcon
    rw [validateLicense_some store now license domain file lic hfound,
      hact, hexp, hany, hcon]
    simp
  · intro signer now req domain file msg hl hd hf hl1 hd1 hf1 hgram hval
    rw [handleDownloadT_shape store signer now req license domain file
      hl hd hf hl1 hd1 hf1]
    simp [hgram, hval]
  · intro h now domain file
    exact validateLicense_inherited store now license domain file h

/-- C4 witness: each of the five reasons, the accepting run, the 403
surfacing, and the prototype-chain inactive case, exercised on concrete
stores. -/
theorem C4_ordered_short_circuit_witness :
    validateLicense [] 0 "K".data "d".data "f".data =
      some "License not found" ∧
    validateLicense
      [("K".data, { active := false, expires := 99, domains := [],
                    files := [] })] 0 "K".data "d".data "f".data =
      some "License inactive" ∧
    validateLicense
      [("K".data, { active := true, expires := 10, domains := [],
                    files := [] })] 99 "K".data "d".data "f".data =
      some "License expired" ∧
    validateLicense
      [("K".data, { active := true, expires := 10, domains := ["ok".data],
                    files := [] })] 5 "K".data "bad".data "f".data =
      some "Domain not allowed" ∧
    validateLicense
      [("K".data, { active := true, expires := 10, domains := ["ok".data],
                    files := ["a/b.zip".data] })] 5 "K".data "xok".data
      "c.zip".data = some "File not permitted for this license" ∧
    validateLicense
      [("K".data, { active := true, expires := 10, domains := ["ok".data],
                    files := ["a/b.zip".data] })] 5 "K".data "xok".data
      "a/b.zip".data = none ∧
    handleDownloadT [] (fun c => some c.key) 0
      { license := some "K".data, domain := some "d".data,
        file := some "f.zip".data } =
      (rejectResp "License not found", [Event.storeLookup "K".data]) ∧
    validateLicense [] 0 "hasOwnProperty".data "d".data "f".data =
      some "License inactive" := by
  refine ⟨?_, ?_, ?_, ?_, ?_, ?_, ?_, ?_⟩
  · exact (C4_ordered_short_circuit [] "K".data).1 (by decide) 0 _ _
  · exact (C4_ordered_short_circuit _ "K".data).2.1
      { active := false, expires := 99, domains := [], files := [] }
      (by decide) rfl 0 _ _
  · exact (C4_ordered_short_circuit _ "K".data).2.2.1
      { active := true, expires := 10, domains := [], files := [] }
      (by decide) rfl 99 (by decide) _ _
  · exact (C4_ordered_short_circuit _ "K".data).2.2.2.1
      { active := true, expires := 10, domains := ["ok".data], files := [] }
      (by decide) rfl 5 (by decide) _ (by decide) _
  · exact (C4_ordered_short_circuit _ "K".data).2.2.2.2.1
      { active := true, expires := 10, domains := ["ok".data],
        files := ["a/b.zip".data] }
      (by decide) rfl 5 (by decide) _ (by decide) _ (by decide)
  · exact (C4_ordered_short_circuit _ "K".data).2.2.2.2.2.1
      { active := true, expires := 10, domains := ["ok".data],
        files := ["a/b.zip".data] }
      (by decide) rfl 5 (by decide) _ (by decide) _ (by decide)
  · exact (C4_ordered_short_circuit [] "K".data).2.2.2.2.2.2.1 _ 0 _ _ _ _
      rfl rfl rfl (by decide) (by decide) (by decide) (by decide) (by decide)
  · exact (C4_ordered_short_circuit [] "hasOwnProperty".data).2.2.2.2.2.2.2
      (by decide) 0 _ _

/-- C5 counterexample: `"constructor"` is not a stored record key, yet
bracket access walks the prototype chain and yields the truthy inherited
`Object.prototype.constructor`, so the Validator rejects with
"License inactive", not "License not found" — refuting the claim's
universal statement. -/
theorem C5_prototype_chain_counterexample :
    (∀ p ∈ LICENSES, p.1 ≠ "constructor".data) ∧
    validateLicense LICENSES 0 "constructor".data "localhost".data
      "theme-a/demo.zip".data = some "License inactive" ∧
    validateLicense LICENSES 0 "constructor".data "localhost".data
      "theme-a/demo.zip".data ≠ some "License not found" :=
  ⟨by decide, by decide, by decide⟩

/-- C5 (amended): license lookup is exact-match and case-sensitive with
no partial matches among stored keys, except that a key naming an
`Object.prototype` member hits the prototype chain: a key equal to no
stored record key and to no prototype member name is answered
"License not found" (in particular a key differing from a stored key
only in letter case), while a prototype member name yields the truthy
inherited value and is answered "License inactive" instead. -/
theorem C5_exact_lookup_amended (now : Int) (key domain file : List Char)
    (h : ∀ p ∈ LICENSES, p.1 ≠ key) :
    (protoKeys.contains key = false →
      validateLicense LICENSES now key domain file =
        some "License not found") ∧
    (protoKeys.contains key = true →
      validateLicense LICENSES now key domain file =
        some "License inactive") := by
  have hfind : LICENSES.find? (fun p => p.1 == key) = none := by
    rw [List.find?_eq_none]
    intro p hp
    simp only [beq_iff_eq]
    exact h p hp
  constructor
  · intro hp
    have hp2 : key ∉ protoKeys := by simpa using hp
    have hu : lookupLicense LICENSES key = JsLookup.undef := by
      simp [lookupLicense, hfind, hp2]
    exact validateLicense_none LICENSES now key domain file hu
  · intro hp
    have hp2 : key ∈ protoKeys := by simpa using hp
    have hi : lookupLicense LICENSES key = JsLookup.inherited := by
      simp [lookupLicense, hfind, hp2]
    exact validateLicense_inherited LICENSES now key domain file hi

/-- C5 witness: a key differing from a stored key only in letter case is
still not found; a prototype member name is rejected as inactive. -/
theorem C5_exact_lookup_amended_witness :
    validateLicense LICENSES 0 "abc-123-xyz".data "localhost".data
      "theme-a/demo.zip".data = some "License not found" ∧
    validateLicense LICENSES 0 "toString".data "localhost".data
      "theme-a/demo.zip".data = some "License inactive" :=
  ⟨(C5_exact_lookup_amended 0 "abc-123-xyz".data "localhost".data
      "theme-a/demo.zip".data (by decide)).1 (by decide),
   (C5_exact_lookup_amended 0 "toString".data "localhost".data
      "theme-a/demo.zip".data (by decide)).2 (by decide)⟩

/-- C6: for an existing, active record, the validator reports
"License expired" exactly when the current time is strictly after the
record's parsed expiry instant (the comparison is now > expiresAt); a
record whose expiry is not in the past passes the expiry check. -/
theorem C6_expiry_strict_comparison
    (store : List (List Char × LicenseRecord)) (now : Int)
    (license domain file : List Char) (lic : LicenseRecord)
    (hfound : lookupLicense store license = JsLookup.record lic)
    (hactive : lic.active = true) :
    validateLicense store now license domain file = some "License expired"
      ↔ lic.expires < now := by
  rw [validateLicense_some store now license domain file lic hfound, hactive]
  by_cases hexp : lic.expires < now
  · have he : isExpired lic.expires now = true := by
      simp [isExpired, hexp]
    rw [he]
    simp [hexp]
  · have he : isExpired lic.expires now = false := by
      simp [isExpired, hexp]
    rw [he]
    constructor
    · intro h
      exfalso
      simp only [Bool.not_true, if_false] at h
      split at h
      · simp at h
      · split at h <;> simp at h
    · intro h
      exact absurd h hexp

/-- C6 witness: an active record whose parsed expiry instant 10 lies
strictly before the current instant 99 is reported expired. -/
theorem C6_expiry_strict_comparison_witness :
    validateLicense
      [("K".data, { active := true, expires := 10, domains := ["d".data],
                    files := ["f.zip".data] })] 99 "K".data "d".data
      "f.zip".data = some "License expired" :=
  (C6_expiry_strict_comparison _ 99 "K".data "d".data "f.zip".data
    { active := true, expires := 10, domains := ["d".data],
      files := ["f.zip".data] } (by decide) rfl).mpr (by decide)

/-- C7: on a fully valid triple the issuer asks the signer for a URL
valid for exactly 600 seconds, and the 200 response carries the signer's
URL, expires_in 600, expires_at equal to issuance time plus 600 seconds,
and the requested file string unchanged. -/
theorem C7_success_payload (store : List (List Char × LicenseRecord))
    (signer : SignCmd → Option (List Char)) (now : Int)
    (req : DownloadRequest) (license domain file url : List Char)
    (hl : req.license = some license) (hd : req.domain = some domain)
    (hf : req.file = some file) (hl1 : license ≠ []) (hd1 : domain ≠ [])
    (hf1 : file ≠ []) (hgram : validateFileName file = true)
    (hval : validateLicense store now license domain file = none)
    (hsign : signer (signCommand file) = some url) :
    signCommand file = { key := file, expiresIn := 600 } ∧
    generateSignedUrl signer file = signer { key := file, expiresIn := 600 } ∧
    handleDownloadT store signer now req =
      ({ status := 200, success := true
         message := some "License and domain verified", error := none
         data := some { url := url, expires_in := 600
                        expires_at := now + 600 * 1000, file := file } },
       [Event.storeLookup license, Event.signCall (signCommand file)]) := by
  refine ⟨rfl, rfl, ?_⟩
  rw [handleDownloadT_shape store signer now req license domain file
    hl hd hf hl1 hd1 hf1]
  simp [hgram, hval, generateSignedUrl, hsign, successResp]

/-- C7 witness: a concrete fully valid triple against the seeded store
with a concrete signer, at issuance time 0. -/
theorem C7_success_payload_witness :
    handleDownloadT LICENSES
      (fun c => some ("https://r2.example/".data ++ c.key)) 0
      { license := some "ABC-123-XYZ".data,
        domain := some "demo.yourtheme.com".data,
        file := some "theme-a/demo.zip".data } =
      ({ status := 200, success := true
         message := some "License and domain verified", error := none
         data := some { url := "https://r2.example/theme-a/demo.zip".data
                        expires_in := 600, expires_at := 600000
                        file := "theme-a/demo.zip".data } },
       [Event.storeLookup "ABC-123-XYZ".data,
        Event.signCall { key := "theme-a/demo.zip".data,
                         expiresIn := 600 }]) :=
  (C7_success_payload LICENSES
    (fun c => some ("https://r2.example/".data ++ c.key)) 0
    { license := some "ABC-123-XYZ".data,
      domain := some "demo.yourtheme.com".data,
      file := some "theme-a/demo.zip".data }
    "ABC-123-XYZ".data "demo.yourtheme.com".data "theme-a/demo.zip".data
    "https://r2.example/theme-a/demo.zip".data
    rfl rfl rfl (by decide) (by decide) (by decide) (by decide) (by decide)
    (by decide)).2.2

/-- C8: when every check passes but the signing call fails, the response
is the fixed 500 payload with the generic retry-later message — a constant
carrying nothing of the underlying cause — and the trace shows exactly one
signing call, so no retry is attempted. -/
theorem C8_issuance_failure_generic (store : List (List Char × LicenseRecord))
    (signer : SignCmd → Option (List Char)) (now : Int)
    (req : DownloadRequest) (license domain file : List Char)
    (hl : req.license = some license) (hd : req.domain = some domain)
    (hf : req.file = some file) (hl1 : license ≠ []) (hd1 : domain ≠ [])
    (hf1 : file ≠ []) (hgram : validateFileName file = true)
    (hval : validateLicense store now license domain file = none)
    (hsign : signer (signCommand file) = none) :
    handleDownloadT store signer now req =
      (issuanceFailedResp,
       [Event.storeLookup license, Event.signCall (signCommand file)]) ∧
    issuanceFailedResp.error =
      some "Failed to generate download URL. Please try again later." ∧
    issuanceFailedResp.status = 500 := by
  refine ⟨?_, rfl, rfl⟩
  rw [handleDownloadT_shape store signer now req license domain file
    hl hd hf hl1 hd1 hf1]
  simp [hgram, hval, generateSignedUrl, hsign]

/-- C8 witness: a concrete valid triple with a signer that always fails. -/
theorem C8_issuance_failure_generic_witness :
    handleDownloadT LICENSES (fun _ => none) 0
      { license := some "ABC-123-XYZ".data, domain := some "localhost".data,
        file := some "theme-a/demo.zip".data } =
      (issuanceFailedResp,
       [Event.storeLookup "ABC-123-XYZ".data,
        Event.signCall { key := "theme-a/demo.zip".data,
                         expiresIn := 600 }]) :=
  (C8_issuance_failure_generic LICENSES (fun _ => none) 0
    { license := some "ABC-123-XYZ".data, domain := some "localhost".data,
      file := some "theme-a/demo.zip".data }
    "ABC-123-XYZ".data "localhost".data "theme-a/demo.zip".data
    rfl rfl rfl (by decide) (by decide) (by decide) (by decide) (by decide)
    rfl).1

set_option maxRecDepth 4000 in
/-- C1 (code bug): the rate limiter is configured (src/index.js lines
58-73) but never mounted, so the `/download` processing can never answer
429 and never consults any rate bucket — every request, including the
31st from one identity inside one window, is processed in full and
reaches the Validator.  By contrast the configured policy itself, as the
specification describes it, would reject the 31st hit of a window
(count 31 > max 30), would still admit the 30th, and would admit a hit
arriving after the window has elapsed (the counter resets). -/
theorem C1_rate_limiter_never_consulted :
    (∀ (store : List (List Char × LicenseRecord))
       (signer : SignCmd → Option (List Char)) (now : Int)
       (req : DownloadRequest),
       (handleDownloadT store signer now req).1.status ≠ 429 ∧
       ∀ id : List Char,
         Event.rateCheck id ∉ (handleDownloadT store signer now req).2) ∧
    rateLimitExceededResp.status = 429 ∧
    rateRejects (rateLimitHit 0 (hitsN 0 30)) = true ∧
    rateRejects (rateLimitHit 0 (hitsN 0 29)) = false ∧
    rateRejects (rateLimitHit (rateWindowMs + 1) (hitsN 0 30)) = false ∧
    (handleDownloadT LICENSES (fun c => some c.key) 0
      { license := some "ABC-123-XYZ".data, domain := some "localhost".data,
        file := some "theme-a/demo.zip".data }).1.status = 200 ∧
    Event.storeLookup "ABC-123-XYZ".data ∈
      (handleDownloadT LICENSES (fun c => some c.key) 0
        { license := some "ABC-123-XYZ".data,
          domain := some "localhost".data,
          file := some "theme-a/demo.zip".data }).2 := by
  refine ⟨?_, rfl, by decide, by decide, by decide, by decide, by decide⟩
  intro store signer now req
  constructor
  · show (handleDownloadT store signer now req).1.status ≠ 429
    simp only [handleDownloadT]
    split
    · decide
    · split
      · decide
      · split
        · simp [rejectResp]
        · split
          · simp [successResp]
          · simp [issuanceFailedResp]
  · intro id
    show Event.rateCheck id ∉ (handleDownloadT store signer now req).2
    simp only [handleDownloadT]
    split
    · simp
    · split
      · simp
      · split
        · simp
        · split
          · simp
          · simp

example : validateFileName "theme-a/demo.zip".data = true := by decide
example : validateFileName "../../etc/passwd".data = false := by decide
example : validateFileName "a.txt".data = false := by decide
example : validateFileName "..zip".data = false := by decide
example : jsIncludes "woozio.local".data "evil-woozio.local.attacker.com".data = true := by decide
example :
    validateLicense LICENSES 0 "ABC-123-XYZ".data "localhost".data
      "theme-a/demo.zip".data = none := by decide
example :
    validateLicense LICENSES 0 "abc-123-xyz".data "localhost".data
      "theme-a/demo.zip".data = some "License not found" := by decide
